import Mathlib

/-!
Shallow embedding, in Lean 4, of the core text-to-ISL video generation
pipeline of the SignVerse railway-announcement backend, together with
theorems settling the frozen specification claims about it.

Strings are modelled as `List Char` (ASCII semantics of the Python
string operations used by the source). Filesystem state is modelled as
the set (list) of existing paths; external effects (the ffmpeg tool,
ffprobe, the database, the video sub-call) are injected as explicit
outcome parameters.
-/

namespace SignVerse

/-- Strings of the embedded program, as explicit character lists. -/
abbrev Str := List Char

deriving instance DecidableEq for Except

/-- Python whitespace (the characters `str.split()` / `str.strip()` and the
regex class treat as whitespace, restricted to ASCII). -/
def pyIsSpace (c : Char) : Bool :=
  c = ' ' || c = '\t' || c = '\n' || c = '\r' || c = '\x0b' || c = '\x0c'

/-- Characters matched by the regex class used in `re.sub(r'[^\w\s]', '', text)`:
ASCII letters, decimal digits and the underscore. -/
def isWordChar (c : Char) : Bool :=
  c.isAlphanum || c = '_'

/-- Python `str.lower()` (ASCII). -/
def pyLower (s : Str) : Str := s.map Char.toLower

/-- Python `str.strip()`: drop leading and trailing whitespace. -/
def pyStrip (s : Str) : Str :=
  ((s.dropWhile pyIsSpace).reverse.dropWhile pyIsSpace).reverse

/-- Embedding of `re.sub(r'[^\w\s]', '', text)`: keep exactly the word
characters and the whitespace characters. -/
def removePunct (s : Str) : Str :=
  s.filter (fun c => isWordChar c || pyIsSpace c)

/-- Worker for `pySplit`; `acc` holds the current word reversed. -/
def pySplitAux : Str → Str → List Str
  | [], acc => if acc.isEmpty then [] else [acc.reverse]
  | c :: cs, acc =>
    if pyIsSpace c then
      if acc.isEmpty then pySplitAux cs [] else acc.reverse :: pySplitAux cs []
    else pySplitAux cs (c :: acc)

/-- Python `str.split()` with no argument: split on runs of whitespace,
discarding empty pieces. -/
def pySplit (s : Str) : List Str := pySplitAux s []

/-- Python `str.isdigit()` (ASCII): nonempty and all decimal digits. -/
def pyIsDigit (s : Str) : Bool :=
  !s.isEmpty && s.all Char.isDigit

/-- Embedding of `parse_text_to_signs` (isl_video_generation.py): strip and
lower-case the text, delete the characters matching `[^\w\s]`, split on
whitespace keeping the non-empty stripped words, then expand each word that
is all digits and longer than one character into its individual digits. -/
def parse_text_to_signs (text : Str) : List Str :=
  let t1 := pyLower (pyStrip text)
  let t2 := removePunct t1
  let words := (pySplit t2).filterMap
    (fun w => let w' := pyStrip w; if w'.isEmpty then none else some w')
  words.flatMap (fun word =>
    if pyIsDigit word then
      if word.length > 1 then word.map (fun d => [d]) else [word]
    else [word])

/-- The tokenizer as the specification words it: lower-case and strip the
input, remove all punctuation characters (characters that are neither word
characters nor whitespace) except whitespace, split on whitespace into words
discarding empty strings, and expand every word consisting solely of decimal
digits with length greater than one into its individual digit characters,
keeping every other word as a single unchanged token. -/
def tokenizeSpec (text : Str) : List Str :=
  let t := removePunct (pyStrip (pyLower text))
  (pySplit t).flatMap (fun word =>
    if pyIsDigit word ∧ word.length > 1 then word.map (fun d => [d]) else [word])

/-! ## Sign Asset Resolver (get_video_files_for_signs) -/

/-- Path join `dir / name` of the source's `pathlib` joins, rendered as the
joined string. -/
def joinPath (dir name : Str) : Str := dir ++ '/' :: name

/-- The two supported avatar models. -/
def SUPPORTED_MODELS : List Str := ["male".toList, "female".toList]

/-- Existence checks the resolver performs against the asset library: the
resolver touches the filesystem only through these two predicates. -/
structure FsView where
  fileExists : Str → Bool
  dirExists : Str → Bool

/-- The eight candidate locations the source probes for one sign, in the
source's order: direct files in the model directory for each extension, then
the same filenames inside the subdirectory named after the sign. -/
def possible_files (model_dir sign : Str) : List Str :=
  [joinPath model_dir (sign ++ ".mp4".toList),
   joinPath model_dir (sign ++ ".MP4".toList),
   joinPath model_dir (sign ++ ".avi".toList),
   joinPath model_dir (sign ++ ".mov".toList),
   joinPath (joinPath model_dir sign) (sign ++ ".mp4".toList),
   joinPath (joinPath model_dir sign) (sign ++ ".MP4".toList),
   joinPath (joinPath model_dir sign) (sign ++ ".avi".toList),
   joinPath (joinPath model_dir sign) (sign ++ ".mov".toList)]

/-- The per-sign loop of `get_video_files_for_signs`: first existing candidate
wins, signs without a hit go to the missing list. -/
def resolveLoop (fsv : FsView) (model_dir : Str) : List Str → List Str × List Str
  | [] => ([], [])
  | sign :: rest =>
    let found := (possible_files model_dir sign).find? fsv.fileExists
    let pr := resolveLoop fsv model_dir rest
    match found with
    | some p => (p :: pr.1, pr.2)
    | none => (pr.1, sign :: pr.2)

/-- Embedding of `get_video_files_for_signs`: validates the model, requires the
model directory to exist, then resolves each sign in order. The error payload
carries the message of the `ValueError` / `FileNotFoundError` the source
raises (formatting of the interpolated values abbreviated). -/
def get_video_files_for_signs (fsv : FsView) (videosRoot : Str) (signs : List Str)
    (model : Str) : Except Str (List Str × List Str) :=
  if model ∈ SUPPORTED_MODELS then
    let model_dir := joinPath videosRoot (model ++ "-model".toList)
    if fsv.dirExists model_dir then
      .ok (resolveLoop fsv model_dir signs)
    else
      .error ("Model directory not found: ".toList ++ model_dir)
  else
    .error ("Unsupported model: ".toList ++ model)

/-- Fixed priority list of supported container extensions, from the
specification. -/
def extensionPriority : List Str :=
  [".mp4".toList, ".MP4".toList, ".avi".toList, ".mov".toList]

/-- Direct candidates of the specification: `token.ext` in the model
directory, for each extension in priority order. -/
def directCandidates (model_dir token : Str) : List Str :=
  extensionPriority.map (fun ext => joinPath model_dir (token ++ ext))

/-- Subdirectory candidates of the specification: the same filename patterns
one level inside a subdirectory named exactly like the token. -/
def subdirCandidates (model_dir token : Str) : List Str :=
  extensionPriority.map (fun ext => joinPath (joinPath model_dir token) (token ++ ext))

/-- First existing candidate for a token: probe the direct files first, then
the subdirectory patterns, and stop at the first hit. -/
def firstHit (fsv : FsView) (model_dir token : Str) : Option Str :=
  (directCandidates model_dir token ++ subdirCandidates model_dir token).find?
    fsv.fileExists

/-- The resolver as the specification words it: resolved tokens keep their
original order and map to their first hit; tokens with no hit are collected,
in order, in the missing list. -/
def resolveSpec (fsv : FsView) (model_dir : Str) (tokens : List Str) :
    List Str × List Str :=
  (tokens.filterMap (firstHit fsv model_dir),
   tokens.filter (fun t => (firstHit fsv model_dir t).isNone))

/-! ## Path stems (the source stores found paths as strings and later takes
`Path(f).stem` of them) -/

/-- Last path component: the part after the final slash. -/
def lastComponent (p : Str) : Str := (p.reverse.takeWhile (fun c => c ≠ '/')).reverse

/-- Stem of a file name: the name without its final extension; a name whose
only dot starts it keeps the extension (as in `pathlib`). -/
def stemOfName (name : Str) : Str :=
  let ext := name.reverse.takeWhile (fun c => c ≠ '.')
  if ext.length = name.length then name
  else
    let stemRev := name.reverse.drop (ext.length + 1)
    if stemRev.isEmpty then name else stemRev.reverse

/-- Python `Path(p).stem`. -/
def pathStem (p : Str) : Str := stemOfName (lastComponent p)

/-! ## Clip Concatenation Engine (stitch_videos_with_ffmpeg) -/

/-- Filesystem contents of a directory tree, as the list of existing paths. -/
abbrev FsSet := List Str

/-- Create a file (set-like insert). -/
def addFile (fs : FsSet) (p : Str) : FsSet := if p ∈ fs then fs else p :: fs

/-- Delete a file. -/
def removeFile (fs : FsSet) (p : Str) : FsSet := fs.filter (fun q => q ≠ p)

/-- Python `output_path.replace('.mp4', '_filelist.txt')`, used by
`create_ffmpeg_concat_command` to name the concat manifest. -/
def manifestPath : Str → Str
  | '.' :: 'm' :: 'p' :: '4' :: rest => "_filelist.txt".toList ++ manifestPath rest
  | c :: rest => c :: manifestPath rest
  | [] => []

/-- Outcome of the external ffmpeg run: either the process finished with a
return code, diagnostic output on stderr and a flag recording whether it
wrote (possibly partial) output, or the 300-second timeout expired (the
process is killed; it may likewise have written partial output). -/
inductive ToolOutcome where
  | completed (returncode : Int) (stderr : Str) (wroteOutput : Bool)
  | timedOut (wroteOutput : Bool)
deriving DecidableEq

/-- Outcome of one ffprobe duration probe (seconds kept as an abstract
integral value; the claims never compute with durations). -/
inductive ProbeOutcome where
  | ok (seconds : Int)
  | failed
deriving DecidableEq

/-- Embedding of `get_video_duration`: the probed value, or 0.0 when probing
fails. -/
def get_video_duration : ProbeOutcome → Int
  | .ok s => s
  | .failed => 0

/-- Embedding of `stitch_videos_with_ffmpeg`. Returns the staging filesystem
after the call, paired with the duration or the message of the raised
exception. One file: copy it to the output path and probe the source.
Several files: write the manifest, run the tool; on return code 0 the
manifest is removed and the output probed; on nonzero return code the inner
`RuntimeError` is re-wrapped by the generic handler; on timeout the
`TimeoutExpired` handler raises directly. The tool's own effect (writing the
output file, fully or partially) is applied in every case it occurred. -/
def stitch_videos_with_ffmpeg (fs : FsSet) (video_files : List Str)
    (output_path : Str) (tool : ToolOutcome) (probe : ProbeOutcome) :
    FsSet × Except Str Int :=
  if video_files.isEmpty then
    (fs, .error "No video files to stitch".toList)
  else if video_files.length = 1 then
    (addFile fs output_path, .ok (get_video_duration probe))
  else
    let file_list_path := manifestPath output_path
    let fs1 := addFile fs file_list_path
    match tool with
    | .completed rc stderr wrote =>
      let fs2 := if wrote then addFile fs1 output_path else fs1
      if rc = 0 then
        (removeFile fs2 file_list_path, .ok (get_video_duration probe))
      else
        (fs2, .error ("Video processing failed: FFmpeg concatenation failed: ".toList
          ++ stderr))
    | .timedOut wrote =>
      let fs2 := if wrote then addFile fs1 output_path else fs1
      (fs2, .error "Video processing timed out".toList)

/-- A failing tool outcome: nonzero exit status or expired timeout. -/
def ToolOutcome.failed : ToolOutcome → Bool
  | .completed rc _ _ => rc ≠ 0
  | .timedOut _ => true

/-- Whether the tool wrote (possibly partial) output. -/
def ToolOutcome.wrote : ToolOutcome → Bool
  | .completed _ _ w => w
  | .timedOut w => w

/-! ## The generate endpoint (generate_isl_video) -/

/-- Staging directory for temporary preview videos. -/
def TEMP_VIDEOS_DIR : Str := "frontend/public/temp/videos".toList

structure VideoGenerationRequest where
  text : Str
  model : Str
  user_id : Int
deriving DecidableEq

structure VideoGenerationResponse where
  success : Bool
  temp_video_id : Str
  preview_url : Str
  video_duration : Option Int := none
  signs_used : List Str
  signs_skipped : List Str
  error : Option Str := none
deriving DecidableEq

/-- Comma-joined rendering of the missing-sign list interpolated into the
"no video files" detail (Python list formatting abbreviated). -/
def joinWords (l : List Str) : Str := (l.intersperse ", ".toList).flatten

/-- External-world inputs of one `generate_isl_video` call: the asset-library
view, the asset root, the staging directory contents, the fresh uuid4 value
and the outcomes of the external tool invocations. -/
structure GenEnv where
  fsv : FsView
  videosRoot : Str
  tempFs : FsSet
  uuid : Str
  tool : ToolOutcome
  probe : ProbeOutcome

/-- Embedding of the `generate_isl_video` endpoint. `Except.error (s, d)`
models `HTTPException(status_code=s, detail=d)`; exceptions of the helpers
are caught by the endpoint's generic handler and re-raised as status 500
with the `Video generation failed:` prefix. -/
def generate_isl_video (env : GenEnv) (request : VideoGenerationRequest) :
    Except (Nat × Str) VideoGenerationResponse :=
  if request.model ∉ SUPPORTED_MODELS then
    .error (400, "Unsupported model: ".toList ++ request.model)
  else if request.text.isEmpty || (pyStrip request.text).isEmpty then
    .error (400, "Text cannot be empty".toList)
  else
    let signs := parse_text_to_signs request.text
    if signs.isEmpty then
      .error (400, "No valid signs found in text".toList)
    else
      match get_video_files_for_signs env.fsv env.videosRoot signs request.model with
      | .error e => .error (500, "Video generation failed: ".toList ++ e)
      | .ok (video_files, missing_signs) =>
        if video_files.isEmpty then
          .error (400, "No video files found for any signs. Missing: ".toList ++
            joinWords missing_signs)
        else
          let temp_video_id := env.uuid
          let temp_output_path := joinPath TEMP_VIDEOS_DIR (temp_video_id ++ ".mp4".toList)
          match (stitch_videos_with_ffmpeg env.tempFs video_files temp_output_path
              env.tool env.probe).2 with
          | .error e => .error (500, "Video generation failed: ".toList ++ e)
          | .ok duration =>
            .ok { success := true
                  temp_video_id := temp_video_id
                  preview_url := "/isl-video-generation/preview/".toList ++ temp_video_id
                  video_duration := some duration
                  signs_used := video_files.map pathStem
                  signs_skipped := missing_signs
                  error := none }

/-! ## Video Lifecycle Manager (save_isl_video, cleanup_temp_video) -/

/-- Staging file name for a temporary video id. -/
def tempName (temp_video_id : Str) : Str := temp_video_id ++ ".mp4".toList

/-- Durable storage: staging directory contents plus, per user, the files in
`FINAL_VIDEOS_DIR/user_{user_id}/`. -/
structure VideoStore where
  staging : List Str
  finalFiles : List (Int × Str)
deriving DecidableEq

structure VideoSaveResponse where
  success : Bool
  final_video_url : Str
  video_id : Str
  filename : Str
  error : Option Str := none
deriving DecidableEq

/-- Decimal rendering used for the user id inside the served URL. -/
def intStr (n : Int) : Str := (toString n).toList

/-- Embedding of the `save_isl_video` endpoint: 404 when the staging file for
the id does not exist, otherwise the staging file is moved (removed from
staging, created under the per-user directory) under
`isl_video_{timestamp}_{id[:8]}.mp4`. -/
def save_isl_video (st : VideoStore) (temp_video_id : Str) (user_id : Int)
    (timestamp : Str) : Except (Nat × Str) (VideoStore × VideoSaveResponse) :=
  if tempName temp_video_id ∈ st.staging then
    let final_filename := "isl_video_".toList ++ timestamp ++ "_".toList ++
      temp_video_id.take 8 ++ ".mp4".toList
    let st2 : VideoStore :=
      { staging := st.staging.filter (fun f => f ≠ tempName temp_video_id)
        finalFiles := (user_id, final_filename) :: st.finalFiles }
    .ok (st2,
      { success := true
        final_video_url := "/api/v1/isl-videos/serve/".toList ++ intStr user_id ++
          "/".toList ++ final_filename
        video_id := temp_video_id
        filename := final_filename
        error := none })
  else
    .error (404, "Temporary video not found or expired".toList)

/-- Embedding of the helper `cleanup_temp_video`: unlink the staging file if
it exists, do nothing otherwise (the helper also swallows unlink errors). -/
def cleanup_temp_video (staging : List Str) (temp_video_id : Str) : List Str :=
  staging.filter (fun f => f ≠ tempName temp_video_id)

structure CleanupResponse where
  success : Bool
  message : Str
deriving DecidableEq

/-- Embedding of the `DELETE /cleanup/{temp_video_id}` endpoint: always calls
the helper and returns a success message; nothing in the response depends on
whether a file existed. -/
def cleanup_temp_video_endpoint (staging : List Str) (temp_video_id : Str) :
    List Str × CleanupResponse :=
  (cleanup_temp_video staging temp_video_id,
   { success := true
     message := "Temporary video ".toList ++ temp_video_id ++
       " cleaned up successfully".toList })

/-! ## Announcement Generation Orchestrator (train_announcement_service) -/

/-- Worker for `pyReplace`, with fuel: each step consumes at least one
character of the subject when the needle is nonempty. -/
def pyReplaceAux : Nat → Str → Str → Str → Str
  | 0, s, _, _ => s
  | _ + 1, [], _, _ => []
  | fuel + 1, c :: rest, needle, repl =>
    if needle.isPrefixOf (c :: rest) && !needle.isEmpty then
      repl ++ pyReplaceAux fuel ((c :: rest).drop needle.length) needle repl
    else
      c :: pyReplaceAux fuel rest needle repl

/-- Python `s.replace(needle, repl)`: replace non-overlapping occurrences,
scanning left to right. -/
def pyReplace (s needle repl : Str) : Str := pyReplaceAux s.length s needle repl

/-- Worker for `findPlaceholders`, with fuel; mirrors the regex search for an
opening brace, a maximal nonempty run of non-closing-brace characters, and a
closing brace; on a failed match scanning advances one character. -/
def findPlaceholdersAux : Nat → Str → List Str
  | 0, _ => []
  | _ + 1, [] => []
  | fuel + 1, c :: rest =>
    if c = '{' then
      let body := rest.takeWhile (fun d => d ≠ '}')
      if body.isEmpty then
        findPlaceholdersAux fuel rest
      else
        match rest.drop body.length with
        | '}' :: rest2 => ('{' :: (body ++ ['}'])) :: findPlaceholdersAux fuel rest2
        | _ => findPlaceholdersAux fuel rest
    else
      findPlaceholdersAux fuel rest

/-- Embedding of `re.findall(placeholder_pattern, template_text)` for the
pattern matching a braced, nonempty, brace-free placeholder name. -/
def findPlaceholders (s : Str) : List Str := findPlaceholdersAux s.length s

/-- The placeholder table of `_substitute_template_placeholders`. -/
def placeholderMap (train_number train_name from_station to_station : Str)
    (platform : Int) : List (Str × Str) :=
  [("{train_number}".toList, train_number),
   ("{train_name}".toList, train_name),
   ("{from_station}".toList, from_station),
   ("{to_station}".toList, to_station),
   ("{from_station_name}".toList, from_station),
   ("{to_station_name}".toList, to_station),
   ("{start_station}".toList, from_station),
   ("{end_station}".toList, to_station),
   ("{platform}".toList, intStr platform)]

/-- Embedding of `_substitute_template_placeholders`: find every placeholder
occurrence, substitute the known ones everywhere, leave unknown placeholders
in place (they are only logged). -/
def substitute_template_placeholders (template_text train_number train_name
    from_station to_station : Str) (platform : Int) : Str :=
  (findPlaceholders template_text).foldl
    (fun acc ph =>
      match (placeholderMap train_number train_name from_station to_station
          platform).lookup ph with
      | some v => pyReplace acc ph v
      | none => acc)
    template_text

structure AnnouncementTemplate where
  template_text_english : Str
  template_text_hindi : Option Str := none
  template_text_marathi : Option Str := none
  template_text_gujarati : Option Str := none
deriving DecidableEq

/-- The translation row for a train route (values assumed present; the
source reads them out of a dictionary built from the row). -/
structure TrainRouteTranslations where
  train_name_hi : Str
  from_station_name_hi : Str
  to_station_name_hi : Str
  train_name_mr : Str
  from_station_name_mr : Str
  to_station_name_mr : Str
  train_name_gu : Str
  from_station_name_gu : Str
  to_station_name_gu : Str
deriving DecidableEq

structure GeneralAnnouncementRecord where
  id : Int
deriving DecidableEq

structure TrainAnnouncementRequest where
  train_number : Str
  train_name : Str
  from_station_name : Str
  to_station_name : Str
  platform : Int
  announcement_category : Str
  model : Str
  user_id : Int
deriving DecidableEq

structure TrainAnnouncementResponse where
  success : Bool
  announcement_id : Option Int := none
  announcement_name : Option Str := none
  generated_text : Option Str := none
  generated_text_hindi : Option Str := none
  generated_text_marathi : Option Str := none
  generated_text_gujarati : Option Str := none
  video_url : Option Str := none
  temp_video_id : Option Str := none
  preview_url : Option Str := none
  error : Option Str := none
  signs_used : Option (List Str) := none
  signs_skipped : Option (List Str) := none
deriving DecidableEq

/-- Outcome of the `generate_isl_video` sub-call as the orchestrator observes
it: either a returned response, or a raised exception (an `HTTPException`
from the endpoint, or anything else) carrying a message. -/
inductive VideoCallOutcome where
  | returns (resp : VideoGenerationResponse)
  | raises (msg : Str)
deriving DecidableEq

/-- Python `str(value)` of an optional string, as interpolated into the
partial-failure message (`None` prints as the text `None`). -/
def optText : Option Str → Str
  | some s => s
  | none => "None".toList

/-- Python truthiness of an optional string: `None` and the empty string are
falsy. -/
def pyTruthy : Option Str → Bool
  | some s => !s.isEmpty
  | none => false

/-- Message of the `AttributeError` Python raises for `announcement.id` when
`announcement` is `None` (quoting of the names omitted). -/
def noneHasNoAttributeId : Str := "NoneType object has no attribute id".toList

/-- Embedding of `TrainAnnouncementService.generate_train_announcement`. The
database reads (template row, translations row), the record creation and the
video sub-call are injected as outcome parameters; everything else follows
the source: missing template fails fast; texts are substituted (non-English
only when the template text is truthy and translations exist); with
persistence requested a failed record creation fails fast; a successful or
unsuccessful video response yields `success=True` (propagating the video
error string in the unsuccessful case); a raised video exception is handled
by a handler that evaluates `announcement.id` - an `AttributeError` when no
record was created, which the outer handler turns into an
`Internal error:` failure response. The success-path record update of the
video path is a swallowed side effect and not modelled. -/
def generate_train_announcement
    (template : Option AnnouncementTemplate)
    (train_translations : Option TrainRouteTranslations)
    (record_created : Option GeneralAnnouncementRecord)
    (video : VideoCallOutcome)
    (request : TrainAnnouncementRequest)
    (save_to_general_announcements : Bool) : TrainAnnouncementResponse :=
  match template with
  | none =>
    { success := false
      error := some ("No template found for category: ".toList ++
        request.announcement_category) }
  | some tmpl =>
    let english_text := substitute_template_placeholders tmpl.template_text_english
      request.train_number request.train_name request.from_station_name
      request.to_station_name request.platform
    let hindi_text : Option Str :=
      match tmpl.template_text_hindi, train_translations with
      | some ht, some tr =>
        if ht.isEmpty then none
        else some (substitute_template_placeholders ht request.train_number
          tr.train_name_hi tr.from_station_name_hi tr.to_station_name_hi
          request.platform)
      | _, _ => none
    let marathi_text : Option Str :=
      match tmpl.template_text_marathi, train_translations with
      | some mt, some tr =>
        if mt.isEmpty then none
        else some (substitute_template_placeholders mt request.train_number
          tr.train_name_mr tr.from_station_name_mr tr.to_station_name_mr
          request.platform)
      | _, _ => none
    let gujarati_text : Option Str :=
      match tmpl.template_text_gujarati, train_translations with
      | some gt, some tr =>
        if gt.isEmpty then none
        else some (substitute_template_placeholders gt request.train_number
          tr.train_name_gu tr.from_station_name_gu tr.to_station_name_gu
          request.platform)
      | _, _ => none
    let announcement_name := request.train_number ++ " ".toList ++
      request.train_name ++ " - ".toList ++ request.announcement_category
    if save_to_general_announcements && record_created.isNone then
      { success := false
        error := some "Failed to create announcement record".toList }
    else
      let announcement : Option GeneralAnnouncementRecord :=
        if save_to_general_announcements then record_created else none
      let announcement_id : Option Int := announcement.map (fun a => a.id)
      match video with
      | .returns resp =>
        if resp.success then
          { success := true
            announcement_id := announcement_id
            announcement_name := some announcement_name
            generated_text := some english_text
            generated_text_hindi := hindi_text
            generated_text_marathi := marathi_text
            generated_text_gujarati := gujarati_text
            temp_video_id := some resp.temp_video_id
            preview_url := some resp.preview_url
            signs_used := some resp.signs_used
            signs_skipped := some resp.signs_skipped
            error := none }
        else
          { success := true
            announcement_id := announcement_id
            announcement_name := some announcement_name
            generated_text := some english_text
            generated_text_hindi := hindi_text
            generated_text_marathi := marathi_text
            generated_text_gujarati := gujarati_text
            error := some ("Announcement created but video generation failed: ".toList
              ++ optText resp.error) }
      | .raises msg =>
        match announcement with
        | some a =>
          { success := true
            announcement_id := some a.id
            announcement_name := some announcement_name
            generated_text := some english_text
            generated_text_hindi := hindi_text
            generated_text_marathi := marathi_text
            generated_text_gujarati := gujarati_text
            error := some ("Announcement created but video generation failed: ".toList
              ++ msg) }
        | none =>
          { success := false
            error := some ("Internal error: ".toList ++ noneHasNoAttributeId) }

/-! ## Live Announcement Queue (live_announcement_service) -/

inductive AnnouncementStatus where
  | received
  | processing
  | generating_video
  | completed
  | error
deriving DecidableEq

structure StatusUpdate where
  status : AnnouncementStatus
  message : Str
  progress_percentage : Option Int := none
  video_url : Option Str := none
  error_message : Option Str := none
deriving DecidableEq

/-- Python `value or default` for an optional string (both `None` and the
empty string fall back to the default). -/
def pyOrStr (o : Option Str) (d : Str) : Str :=
  match o with
  | some s => if s.isEmpty then d else s
  | none => d

/-- The terminal status update `_process_announcement` issues from the
orchestrator call outcome: COMPLETED exactly when the response reports
success and a truthy preview url; otherwise ERROR, surfacing the response
error (or a default) resp. the exception message. -/
def processFinalUpdate (call : Except Str TrainAnnouncementResponse) : StatusUpdate :=
  match call with
  | .ok response =>
    if response.success && pyTruthy response.preview_url then
      { status := .completed
        message := "ISL video generated successfully".toList
        progress_percentage := some 100
        video_url := response.preview_url }
    else
      { status := .error
        message := "Failed to generate ISL video".toList
        error_message :=
          some (pyOrStr response.error "Unknown error during ISL generation".toList) }
  | .error e =>
    { status := .error
      message := "Exception during ISL generation".toList
      error_message := some e }

/-- The ordered status updates `_process_announcement` issues for an existing
job: processing (10%), generating video (50%), then the terminal update. -/
def processAnnouncementUpdates (call : Except Str TrainAnnouncementResponse) :
    List StatusUpdate :=
  [{ status := .processing
     message := "Processing announcement...".toList
     progress_percentage := some 10 },
   { status := .generating_video
     message := "Generating ISL video...".toList
     progress_percentage := some 50 },
   processFinalUpdate call]

structure LiveJobRow where
  announcement_id : Str
  is_active : Bool
  status : AnnouncementStatus
  message : Str
deriving DecidableEq

/-- Service state the submission path manipulates: the live-announcements
table and the pending processing queue. -/
structure LiveQueueState where
  db : List LiveJobRow
  processing_queue : List Str
deriving DecidableEq

/-- Embedding of `_clear_existing_announcements`: the SQL delete of every
row with `is_active = TRUE`. -/
def clear_existing_announcements (db : List LiveJobRow) : List LiveJobRow :=
  db.filter (fun r => !r.is_active)

/-- The database row `add_announcement` creates (fresh rows are active by
column default). -/
def newLiveRow (announcement_id : Str) : LiveJobRow :=
  { announcement_id := announcement_id
    is_active := true
    status := .received
    message := "Announcement received and queued for processing".toList }

/-- Embedding of `add_announcement`: clear the prior active rows, drain every
pending item of the processing queue, create and record the new job row, then
enqueue the new id. -/
def add_announcement (st : LiveQueueState) (announcement_id : Str) : LiveQueueState :=
  let db1 := clear_existing_announcements st.db
  let drained : List Str := []
  { db := db1 ++ [newLiveRow announcement_id]
    processing_queue := drained ++ [announcement_id] }

def c3env : GenEnv :=
  ⟨⟨fun _ => false, fun _ => false⟩, "root".toList, [], "uuid".toList,
    .timedOut false, .failed⟩

def c3req : VideoGenerationRequest := ⟨"!!!".toList, "male".toList, 1⟩

def c5env : GenEnv :=
  ⟨⟨fun p => p = "root/male-model/go.mp4".toList ∨ p = "root/male-model/5.mp4".toList,
    fun d => d = "root/male-model".toList⟩,
   "root".toList, [], "u".toList, .completed 0 [] true, .ok 3⟩

def c5req : VideoGenerationRequest := ⟨"Go 5".toList, "male".toList, 1⟩

def c5files : List Str :=
  ["root/male-model/go.mp4".toList, "root/male-model/5.mp4".toList]

def c5resp : VideoGenerationResponse :=
  { success := true
    temp_video_id := "u".toList
    preview_url := "/isl-video-generation/preview/u".toList
    video_duration := some 3
    signs_used := ["go".toList, "5".toList]
    signs_skipped := []
    error := none }

def c6store : VideoStore := { staging := [tempName "abcdefghij".toList], finalFiles := [] }

def c7id : Str := "abc".toList

def c2template : AnnouncementTemplate :=
  { template_text_english := "Train {train_number} arriving".toList }

def c2request : TrainAnnouncementRequest :=
  { train_number := "12345".toList
    train_name := "Express".toList
    from_station_name := "A".toList
    to_station_name := "B".toList
    platform := 2
    announcement_category := "Arriving".toList
    model := "male".toList
    user_id := 1 }

def c8resp : TrainAnnouncementResponse :=
  { success := true
    error := some "video generation failed".toList }

def c9st : LiveQueueState :=
  { db := [{ announcement_id := "old".toList, is_active := true,
             status := .received, message := [] }]
    processing_queue := ["old".toList] }

/-! ## Lemmas and claim theorems -/

theorem toNat_ofNat_valid (n : Nat) (h : n.isValidChar) : (Char.ofNat n).toNat = n := by
  simp [Char.ofNat, dif_pos h, Char.ofNatAux, Char.toNat, UInt32.toNat,
    BitVec.toNat_ofNatLt]

theorem char_eq_iff_toNat (a b : Char) : a = b ↔ a.toNat = b.toNat := by
  constructor
  · intro h; rw [h]
  · intro h
    apply Char.eq_of_val_eq
    apply UInt32.eq_of_toBitVec_eq
    exact BitVec.eq_of_toNat_eq h

theorem spaceCharVals :
    (' ' : Char).toNat = 32 ∧ ('\t' : Char).toNat = 9 ∧ ('\n' : Char).toNat = 10 ∧
    ('\r' : Char).toNat = 13 ∧ ('\x0b' : Char).toNat = 11 ∧ ('\x0c' : Char).toNat = 12 := by
  decide

theorem pyIsSpace_toLower (c : Char) : pyIsSpace c.toLower = pyIsSpace c := by
  unfold Char.toLower
  by_cases h : c.toNat ≥ 65 ∧ c.toNat ≤ 90
  · rw [if_pos h]
    have hv : (Char.ofNat (c.toNat + 32)).toNat = c.toNat + 32 :=
      toNat_ofNat_valid _ (Or.inl (by omega))
    have lhs : pyIsSpace (Char.ofNat (c.toNat + 32)) = false := by
      simp only [pyIsSpace, Bool.or_eq_false_iff, decide_eq_false_iff_not,
        char_eq_iff_toNat, hv, spaceCharVals]
      refine ⟨⟨⟨⟨⟨?_, ?_⟩, ?_⟩, ?_⟩, ?_⟩, ?_⟩ <;> omega
    have rhs : pyIsSpace c = false := by
      simp only [pyIsSpace, Bool.or_eq_false_iff, decide_eq_false_iff_not,
        char_eq_iff_toNat, spaceCharVals]
      refine ⟨⟨⟨⟨⟨?_, ?_⟩, ?_⟩, ?_⟩, ?_⟩, ?_⟩ <;> omega
    rw [lhs, rhs]
  · rw [if_neg h]

theorem dropWhile_eq_self_of (p : Char → Bool) (l : Str) (h : ∀ c ∈ l, p c = false) :
    l.dropWhile p = l := by
  cases l with
  | nil => rfl
  | cons a t => simp [List.dropWhile_cons, h a (by simp)]

theorem pyStrip_eq_self (w : Str) (h : ∀ c ∈ w, pyIsSpace c = false) : pyStrip w = w := by
  unfold pyStrip
  rw [dropWhile_eq_self_of _ _ h, dropWhile_eq_self_of, List.reverse_reverse]
  intro c hc
  exact h c (by simpa using hc)

theorem pyStrip_pyLower (s : Str) : pyStrip (pyLower s) = pyLower (pyStrip s) := by
  have hcomp : pyIsSpace ∘ Char.toLower = pyIsSpace := funext pyIsSpace_toLower
  unfold pyStrip pyLower
  rw [List.dropWhile_map, hcomp, ← List.map_reverse, List.dropWhile_map, hcomp,
    ← List.map_reverse]

theorem pySplitAux_words : ∀ (s : Str) (acc : Str),
    (∀ c ∈ acc, pyIsSpace c = false) →
    ∀ w ∈ pySplitAux s acc, w ≠ [] ∧ ∀ c ∈ w, pyIsSpace c = false := by
  intro s
  induction s with
  | nil =>
    intro acc hacc w hw
    simp only [pySplitAux] at hw
    split at hw
    · simp at hw
    · rename_i hne
      simp only [List.mem_singleton] at hw
      subst hw
      refine ⟨?_, ?_⟩
      · cases acc with
        | nil => exact absurd rfl hne
        | cons x xs => simp
      · intro c hc
        exact hacc c (by simpa using hc)
  | cons a t ih =>
    intro acc hacc w hw
    simp only [pySplitAux] at hw
    by_cases hs : pyIsSpace a
    · rw [if_pos hs] at hw
      by_cases he : acc.isEmpty
      · rw [if_pos he] at hw
        exact ih [] (by simp) w hw
      · rw [if_neg he] at hw
        rcases List.mem_cons.mp hw with h1 | h2
        · subst h1
          refine ⟨?_, ?_⟩
          · cases acc with
            | nil => exact absurd rfl he
            | cons x xs => simp
          · intro c hc
            exact hacc c (by simpa using hc)
        · exact ih [] (by simp) w h2
    · rw [if_neg hs] at hw
      refine ih (a :: acc) ?_ w hw
      intro c hc
      rcases List.mem_cons.mp hc with h1 | h2
      · subst h1; simpa using hs
      · exact hacc c h2

theorem pySplitAux_chars : ∀ (s : Str) (acc : Str) (w : Str), w ∈ pySplitAux s acc →
    ∀ c ∈ w, c ∈ s ∨ c ∈ acc := by
  intro s
  induction s with
  | nil =>
    intro acc w hw c hc
    simp only [pySplitAux] at hw
    split at hw
    · simp at hw
    · simp only [List.mem_singleton] at hw
      subst hw
      right
      simpa using hc
  | cons a t ih =>
    intro acc w hw c hc
    simp only [pySplitAux] at hw
    by_cases hs : pyIsSpace a
    · rw [if_pos hs] at hw
      by_cases he : acc.isEmpty
      · rw [if_pos he] at hw
        rcases ih [] w hw c hc with h | h
        · exact Or.inl (List.mem_cons_of_mem a h)
        · simp at h
      · rw [if_neg he] at hw
        rcases List.mem_cons.mp hw with h1 | h2
        · subst h1
          right
          simpa using hc
        · rcases ih [] w h2 c hc with h | h
          · exact Or.inl (List.mem_cons_of_mem a h)
          · simp at h
    · rw [if_neg hs] at hw
      rcases ih (a :: acc) w hw c hc with h | h
      · exact Or.inl (List.mem_cons_of_mem a h)
      · rcases List.mem_cons.mp h with h1 | h2
        · subst h1; exact Or.inl (List.mem_cons_self _ _)
        · exact Or.inr h2

theorem pySplit_words (s : Str) :
    ∀ w ∈ pySplit s, w ≠ [] ∧ ∀ c ∈ w, pyIsSpace c = false :=
  pySplitAux_words s [] (by simp)

theorem pySplit_chars (s : Str) (w : Str) (hw : w ∈ pySplit s) : ∀ c ∈ w, c ∈ s := by
  intro c hc
  rcases pySplitAux_chars s [] w hw c hc with h | h
  · exact h
  · simp at h

theorem filterMap_strip_words (l : List Str)
    (h : ∀ w ∈ l, w ≠ [] ∧ ∀ c ∈ w, pyIsSpace c = false) :
    l.filterMap (fun w => let w' := pyStrip w; if w'.isEmpty then none else some w') = l := by
  induction l with
  | nil => rfl
  | cons w t ih =>
    have hw := h w (by simp)
    have hst : pyStrip w = w := pyStrip_eq_self w hw.2
    have hne : w.isEmpty = false := by
      cases w with
      | nil => exact absurd rfl hw.1
      | cons _ _ => rfl
    simp only [List.filterMap_cons, hst, hne, Bool.false_eq_true, if_false]
    rw [ih (fun w hwm => h w (List.mem_cons_of_mem _ hwm))]

/-- The code tokenizer agrees with the specification tokenizer on every input. -/
theorem parse_eq_tokenizeSpec (text : Str) :
    parse_text_to_signs text = tokenizeSpec text := by
  simp only [parse_text_to_signs, tokenizeSpec]
  rw [pyStrip_pyLower]
  rw [filterMap_strip_words _ (pySplit_words _)]
  have hfun : (fun (word : Str) =>
      if pyIsDigit word = true then
        if word.length > 1 then word.map (fun d => [d]) else [word]
      else [word]) =
      (fun (word : Str) =>
        if pyIsDigit word = true ∧ word.length > 1 then word.map (fun d => [d])
        else [word]) := by
    funext w
    by_cases h1 : pyIsDigit w <;> by_cases h2 : w.length > 1 <;> simp [h1, h2]
  rw [hfun]

theorem removePunct_chars (s : Str) : ∀ c ∈ removePunct s, isWordChar c || pyIsSpace c := by
  intro c hc
  exact (List.mem_filter.mp hc).2

theorem tokenizeSpec_words (text : Str) :
    ∀ w ∈ tokenizeSpec text, w ≠ [] ∧ ∀ c ∈ w, isWordChar c = true := by
  intro w hw
  simp only [tokenizeSpec] at hw
  rw [List.mem_flatMap] at hw
  obtain ⟨word, hword, hw⟩ := hw
  have hwprops := pySplit_words (removePunct (pyStrip (pyLower text))) word hword
  have hwchars : ∀ c ∈ word, isWordChar c = true := by
    intro c hc
    have hmem : c ∈ removePunct (pyStrip (pyLower text)) :=
      pySplit_chars _ word hword c hc
    have hor := removePunct_chars (pyStrip (pyLower text)) c hmem
    have hns := hwprops.2 c hc
    rcases Bool.or_eq_true_iff.mp hor with h | h
    · exact h
    · rw [hns] at h; exact absurd h (by simp)
  by_cases hd : pyIsDigit word = true ∧ word.length > 1
  · rw [if_pos hd] at hw
    rw [List.mem_map] at hw
    obtain ⟨dch, hd2, hdw⟩ := hw
    subst hdw
    refine ⟨by simp, ?_⟩
    intro c hc
    simp only [List.mem_singleton] at hc
    subst hc
    exact hwchars _ hd2
  · rw [if_neg hd] at hw
    simp only [List.mem_singleton] at hw
    subst hw
    exact ⟨hwprops.1, hwchars⟩

/-- Every token produced by the code tokenizer is nonempty and consists only
of word characters (letters, digits, underscore). -/
theorem parse_words (text : Str) :
    ∀ w ∈ parse_text_to_signs text, w ≠ [] ∧ ∀ c ∈ w, isWordChar c = true := by
  rw [parse_eq_tokenizeSpec]
  exact tokenizeSpec_words text

theorem possible_files_eq_candidates (model_dir sign : Str) :
    possible_files model_dir sign =
      directCandidates model_dir sign ++ subdirCandidates model_dir sign := rfl

theorem resolveLoop_eq_spec (fsv : FsView) (model_dir : Str) (signs : List Str) :
    resolveLoop fsv model_dir signs = resolveSpec fsv model_dir signs := by
  induction signs with
  | nil => rfl
  | cons sign rest ih =>
    have hpf : (possible_files model_dir sign).find? fsv.fileExists =
        firstHit fsv model_dir sign := by
      rw [possible_files_eq_candidates]; rfl
    simp only [resolveLoop, hpf, ih]
    cases hfind : firstHit fsv model_dir sign with
    | some p =>
      simp only [resolveSpec, List.filterMap_cons, hfind, List.filter_cons,
        Option.isNone_some, Bool.false_eq_true, if_false]
    | none =>
      simp only [resolveSpec, List.filterMap_cons, hfind, List.filter_cons,
        Option.isNone_none, if_true]

theorem takeWhile_append_of_forall {α} (p : α → Bool) (l1 : List α) (c : α) (l2 : List α)
    (h1 : ∀ x ∈ l1, p x = true) (h2 : p c = false) :
    (l1 ++ c :: l2).takeWhile p = l1 := by
  induction l1 with
  | nil => simp [List.takeWhile_cons, h2]
  | cons a t ih =>
    have ha := h1 a (by simp)
    simp only [List.cons_append, List.takeWhile_cons, ha, if_true]
    rw [ih (fun x hx => h1 x (List.mem_cons_of_mem _ hx))]

theorem lastComponent_joinPath (dir name : Str) (h : ∀ c ∈ name, c ≠ '/') :
    lastComponent (joinPath dir name) = name := by
  unfold lastComponent joinPath
  have hrev : (dir ++ '/' :: name).reverse = name.reverse ++ '/' :: dir.reverse := by
    rw [List.reverse_append, List.reverse_cons, List.append_assoc,
      List.singleton_append]
  rw [hrev, takeWhile_append_of_forall _ _ _ _ ?_ ?_, List.reverse_reverse]
  · intro x hx
    simp only [decide_eq_true_eq]
    exact h x (by simpa using hx)
  · simp

theorem stemOfName_append_ext (s tail : Str) (hs : s ≠ [])
    (htail : ∀ c ∈ tail, c ≠ '.') :
    stemOfName (s ++ '.' :: tail) = s := by
  unfold stemOfName
  have hrev : (s ++ '.' :: tail).reverse = tail.reverse ++ '.' :: s.reverse := by
    rw [List.reverse_append, List.reverse_cons, List.append_assoc,
      List.singleton_append]
  have htw : (tail.reverse ++ '.' :: s.reverse).takeWhile (fun c => c ≠ '.') =
      tail.reverse := by
    apply takeWhile_append_of_forall
    · intro x hx
      simp only [decide_eq_true_eq]
      exact htail x (by simpa using hx)
    · simp
  rw [hrev, htw]
  have hlen : tail.reverse.length ≠ (s ++ '.' :: tail).length := by
    simp only [List.length_reverse, List.length_append, List.length_cons]
    omega
  rw [if_neg hlen]
  have hdrop : (tail.reverse ++ '.' :: s.reverse).drop (tail.reverse.length + 1) =
      s.reverse := by
    rw [List.append_cons]
    apply List.drop_left'
    simp
  rw [hdrop]
  have hne : s.reverse.isEmpty = false := by
    cases hrev2 : s.reverse with
    | nil => exact absurd (by simpa using hrev2) hs
    | cons a t => rfl
  simp only [hne, Bool.false_eq_true, if_false, List.reverse_reverse]

theorem pathStem_join (dirp sign tail : Str) (hs : sign ≠ [])
    (hslash : ∀ c ∈ sign, c ≠ '/') (hdot : ∀ c ∈ tail, c ≠ '.')
    (htslash : ∀ c ∈ tail, c ≠ '/') :
    pathStem (joinPath dirp (sign ++ '.' :: tail)) = sign := by
  unfold pathStem
  rw [lastComponent_joinPath]
  · exact stemOfName_append_ext sign tail hs hdot
  · intro c hc
    rcases List.mem_append.mp hc with h | h
    · exact hslash c h
    · rcases List.mem_cons.mp h with h1 | h2
      · subst h1; decide
      · exact htslash c h2

theorem isWordChar_ne_slash {c : Char} (h : isWordChar c = true) : c ≠ '/' := by
  intro he
  subst he
  exact absurd h (by decide)

/-- Stem of any probed candidate path is the sign itself, for word-character
signs. -/
theorem pathStem_of_candidate (model_dir sign p : Str) (hs : sign ≠ [])
    (hw : ∀ c ∈ sign, isWordChar c = true) (hp : p ∈ possible_files model_dir sign) :
    pathStem p = sign := by
  have hslash : ∀ c ∈ sign, c ≠ '/' := fun c hc => isWordChar_ne_slash (hw c hc)
  simp only [possible_files, List.mem_cons, List.not_mem_nil, or_false] at hp
  rcases hp with rfl | rfl | rfl | rfl | rfl | rfl | rfl | rfl <;>
    exact pathStem_join _ _ _ hs hslash (by decide) (by decide)

/-- When no sign is missing, the found files are in bijection with the signs,
in order, and taking stems recovers the sign list. -/
theorem map_stem_of_all_resolved (fsv : FsView) (model_dir : Str) (signs : List Str)
    (hws : ∀ s ∈ signs, s ≠ [] ∧ ∀ c ∈ s, isWordChar c = true)
    (hmiss : (resolveLoop fsv model_dir signs).2 = []) :
    (resolveLoop fsv model_dir signs).1.map pathStem = signs := by
  induction signs with
  | nil => rfl
  | cons sign rest ih =>
    have hrest : ∀ s ∈ rest, s ≠ [] ∧ ∀ c ∈ s, isWordChar c = true :=
      fun s hsm => hws s (List.mem_cons_of_mem _ hsm)
    simp only [resolveLoop] at hmiss ⊢
    cases hfind : (possible_files model_dir sign).find? fsv.fileExists with
    | none =>
      rw [hfind] at hmiss
      simp at hmiss
    | some p =>
      rw [hfind] at hmiss
      simp only at hmiss
      have hpmem : p ∈ possible_files model_dir sign := List.mem_of_find?_eq_some hfind
      have hsp := hws sign (by simp)
      simp only [List.map_cons]
      rw [pathStem_of_candidate model_dir sign p hsp.1 hsp.2 hpmem, ih hrest hmiss]

theorem mem_addFile_self (fs : FsSet) (p : Str) : p ∈ addFile fs p := by
  unfold addFile
  split
  · assumption
  · exact List.mem_cons_self _ _

theorem mem_addFile_of_mem {fs : FsSet} {p : Str} (q : Str) (h : p ∈ fs) :
    p ∈ addFile fs q := by
  unfold addFile
  split
  · exact h
  · exact List.mem_cons_of_mem _ h

/-- C1 counterexample: a concrete failing concatenation (two clips, tool
exits with status 1 after writing partial output) raises the error, but the
output path still exists afterwards - it is neither absent nor explicitly
removed, contradicting the claim's cleanup guarantee. -/
theorem C1_counterexample :
    (stitch_videos_with_ffmpeg [] ["a.mp4".toList, "b.mp4".toList] "out.mp4".toList
        (.completed 1 "boom".toList true) .failed).2 =
      .error ("Video processing failed: FFmpeg concatenation failed: boom".toList) ∧
    "out.mp4".toList ∈
      (stitch_videos_with_ffmpeg [] ["a.mp4".toList, "b.mp4".toList] "out.mp4".toList
        (.completed 1 "boom".toList true) .failed).1 := by
  constructor
  · rfl
  · decide

/-- C1 (amended): on every multi-clip concatenation failure - nonzero tool
exit status or timeout - the operation raises an error, but it performs no
cleanup: the manifest file remains, and if the tool wrote (partial) output
the output path also remains on disk. -/
theorem C1_concat_failure_raises_without_cleanup :
    ∀ (fs : FsSet) (video_files : List Str) (output_path : Str) (tool : ToolOutcome)
      (probe : ProbeOutcome), 2 ≤ video_files.length → tool.failed = true →
      (∃ msg, (stitch_videos_with_ffmpeg fs video_files output_path tool probe).2 =
        .error msg) ∧
      manifestPath output_path ∈
        (stitch_videos_with_ffmpeg fs video_files output_path tool probe).1 ∧
      (tool.wrote = true → output_path ∈
        (stitch_videos_with_ffmpeg fs video_files output_path tool probe).1) := by
  intro fs files out tool probe hlen hfail
  have hne : files.isEmpty = false := by
    cases files with
    | nil => simp at hlen
    | cons a t => rfl
  have h1 : ¬ files.length = 1 := by omega
  cases tool with
  | completed rc stderr wrote =>
    have hrc : ¬ rc = 0 := by
      simp only [ToolOutcome.failed, decide_eq_true_eq] at hfail
      exact hfail
    simp only [stitch_videos_with_ffmpeg, hne, Bool.false_eq_true, if_false,
      if_neg h1, if_neg hrc]
    refine ⟨⟨_, rfl⟩, ?_, ?_⟩
    · cases wrote with
      | true =>
        simp only [if_true]
        exact mem_addFile_of_mem _ (mem_addFile_self _ _)
      | false =>
        simp only [Bool.false_eq_true, if_false]
        exact mem_addFile_self _ _
    · intro hw
      simp only [ToolOutcome.wrote] at hw
      subst hw
      simp only [if_true]
      exact mem_addFile_self _ _
  | timedOut wrote =>
    simp only [stitch_videos_with_ffmpeg, hne, Bool.false_eq_true, if_false,
      if_neg h1]
    refine ⟨⟨_, rfl⟩, ?_, ?_⟩
    · cases wrote with
      | true =>
        simp only [if_true]
        exact mem_addFile_of_mem _ (mem_addFile_self _ _)
      | false =>
        simp only [Bool.false_eq_true, if_false]
        exact mem_addFile_self _ _
    · intro hw
      simp only [ToolOutcome.wrote] at hw
      subst hw
      simp only [if_true]
      exact mem_addFile_self _ _

/-- C1 witness: the amended theorem applied at a concrete failing timeout. -/
theorem C1_concat_failure_raises_without_cleanup_witness :
    (∃ msg, (stitch_videos_with_ffmpeg [] ["a.mp4".toList, "b.mp4".toList]
      "o.mp4".toList (.timedOut true) .failed).2 = .error msg) ∧
    manifestPath "o.mp4".toList ∈
      (stitch_videos_with_ffmpeg [] ["a.mp4".toList, "b.mp4".toList]
        "o.mp4".toList (.timedOut true) .failed).1 ∧
    (ToolOutcome.wrote (.timedOut true) = true → "o.mp4".toList ∈
      (stitch_videos_with_ffmpeg [] ["a.mp4".toList, "b.mp4".toList]
        "o.mp4".toList (.timedOut true) .failed).1) :=
  C1_concat_failure_raises_without_cleanup [] _ _ _ _ (by decide) (by decide)

/-- C4: with a supported avatar model and an existing model directory, the
resolver probes each token in order - the four direct `token.ext` files in
extension-priority order, then the same patterns one level inside the
`token` subdirectory - takes the first existing candidate, keeps resolved
paths in original token order, and collects tokens with no hit, in order, in
the missing list. -/
theorem C4_resolver_probe_order :
    ∀ (fsv : FsView) (videosRoot : Str) (signs : List Str) (model : Str),
      model ∈ SUPPORTED_MODELS →
      fsv.dirExists (joinPath videosRoot (model ++ "-model".toList)) = true →
      get_video_files_for_signs fsv videosRoot signs model =
        .ok (resolveSpec fsv (joinPath videosRoot (model ++ "-model".toList)) signs) := by
  intro fsv root signs model hm hd
  simp only [get_video_files_for_signs, if_pos hm, hd, if_true]
  rw [resolveLoop_eq_spec]

/-- C4 witness: a concrete resolution over a three-token list where the
second token only exists in its subdirectory form and the third is missing.
-/
theorem C4_resolver_probe_order_witness :
    get_video_files_for_signs
      ⟨fun p => p = "root/male-model/hello.mp4".toList ∨
          p = "root/male-model/5/5.mp4".toList,
        fun d => d = "root/male-model".toList⟩
      "root".toList ["hello".toList, "5".toList, "xyz".toList] "male".toList =
      .ok (resolveSpec
        ⟨fun p => p = "root/male-model/hello.mp4".toList ∨
            p = "root/male-model/5/5.mp4".toList,
          fun d => d = "root/male-model".toList⟩
        (joinPath "root".toList ("male".toList ++ "-model".toList))
        ["hello".toList, "5".toList, "xyz".toList]) :=
  C4_resolver_probe_order _ _ _ _ (by decide) (by decide)

/-- C3: tokenization is exactly the lower-case/strip, punctuation-removal,
whitespace-split, digit-expansion pipeline of the specification; the
specification's example holds; and a generate call whose token sequence is
empty fails with one of the two empty-input errors (empty text, or no valid
signs). -/
theorem C3_tokenizer :
    (∀ text : Str, parse_text_to_signs text = tokenizeSpec text) ∧
    parse_text_to_signs "Train 123 arriving".toList =
      ["train".toList, "1".toList, "2".toList, "3".toList, "arriving".toList] ∧
    (∀ (env : GenEnv) (request : VideoGenerationRequest),
      request.model ∈ SUPPORTED_MODELS →
      parse_text_to_signs request.text = [] →
      generate_isl_video env request = .error (400, "Text cannot be empty".toList) ∨
      generate_isl_video env request =
        .error (400, "No valid signs found in text".toList)) := by
  refine ⟨parse_eq_tokenizeSpec, by decide, ?_⟩
  intro env req hm hsigns
  have hnot : ¬ req.model ∉ SUPPORTED_MODELS := fun h => h hm
  by_cases hempty : (req.text.isEmpty || (pyStrip req.text).isEmpty) = true
  · left
    simp only [generate_isl_video, if_neg hnot, hempty, if_true]
  · right
    have hempty2 : (req.text.isEmpty || (pyStrip req.text).isEmpty) = false :=
      Bool.eq_false_iff.mpr hempty
    simp only [generate_isl_video, if_neg hnot, hempty2, Bool.false_eq_true,
      if_false, hsigns, List.isEmpty_nil, if_true]

/-- C3 witness: the empty-token branch of the theorem applied at the
punctuation-only input of the specification's example. -/
theorem C3_tokenizer_witness :
    generate_isl_video c3env c3req = .error (400, "Text cannot be empty".toList) ∨
    generate_isl_video c3env c3req =
      .error (400, "No valid signs found in text".toList) :=
  C3_tokenizer.2.2 c3env c3req (by decide) (by decide)

/-- C5: whenever the tokenized sign list of a generate call resolves
completely (no missing sign), a successful generate response reports exactly
the tokenized sign list, in original order, as `signs_used`, and
`signs_skipped` is empty. -/
theorem C5_roundtrip :
    ∀ (env : GenEnv) (request : VideoGenerationRequest) (video_files : List Str)
      (resp : VideoGenerationResponse),
      get_video_files_for_signs env.fsv env.videosRoot
        (parse_text_to_signs request.text) request.model = .ok (video_files, []) →
      generate_isl_video env request = .ok resp →
      resp.signs_used = parse_text_to_signs request.text ∧
      resp.signs_skipped = [] := by
  intro env req files resp hres hok
  have hm : req.model ∈ SUPPORTED_MODELS := by
    by_contra hm
    simp only [get_video_files_for_signs, if_neg hm] at hres
    simp at hres
  have hd : env.fsv.dirExists (joinPath env.videosRoot
      (req.model ++ "-model".toList)) = true := by
    cases hdb : env.fsv.dirExists (joinPath env.videosRoot
        (req.model ++ "-model".toList)) with
    | true => rfl
    | false =>
      exfalso
      simp only [get_video_files_for_signs, if_pos hm, hdb, Bool.false_eq_true,
        if_false] at hres
      simp at hres
  have hloop : resolveLoop env.fsv
      (joinPath env.videosRoot (req.model ++ "-model".toList))
      (parse_text_to_signs req.text) = (files, []) := by
    simp only [get_video_files_for_signs, if_pos hm, hd, if_true] at hres
    simpa using hres
  have hstem : files.map pathStem = parse_text_to_signs req.text := by
    have h := map_stem_of_all_resolved env.fsv
      (joinPath env.videosRoot (req.model ++ "-model".toList))
      (parse_text_to_signs req.text) (parse_words req.text) (by rw [hloop])
    rw [hloop] at h
    exact h
  have hnot : ¬ req.model ∉ SUPPORTED_MODELS := fun h => h hm
  simp only [generate_isl_video, if_neg hnot] at hok
  by_cases hempty : (req.text.isEmpty || (pyStrip req.text).isEmpty) = true
  · rw [hempty] at hok
    simp at hok
  · have hempty2 : (req.text.isEmpty || (pyStrip req.text).isEmpty) = false :=
      Bool.eq_false_iff.mpr hempty
    rw [hempty2] at hok
    simp only [Bool.false_eq_true, if_false] at hok
    by_cases hse : (parse_text_to_signs req.text).isEmpty = true
    · rw [hse] at hok
      simp at hok
    · have hse2 : (parse_text_to_signs req.text).isEmpty = false :=
        Bool.eq_false_iff.mpr hse
      rw [hse2] at hok
      simp only [Bool.false_eq_true, if_false] at hok
      rw [hres] at hok
      dsimp only at hok
      by_cases hfe : files.isEmpty = true
      · rw [hfe] at hok
        simp at hok
      · have hfe2 : files.isEmpty = false := Bool.eq_false_iff.mpr hfe
        rw [hfe2] at hok
        simp only [Bool.false_eq_true, if_false] at hok
        cases hst : (stitch_videos_with_ffmpeg env.tempFs files
            (joinPath TEMP_VIDEOS_DIR (env.uuid ++ ".mp4".toList)) env.tool
            env.probe).2 with
        | error e =>
          rw [hst] at hok
          simp at hok
        | ok dur =>
          rw [hst] at hok
          simp only [Except.ok.injEq] at hok
          subst hok
          exact ⟨hstem, rfl⟩

/-- C5 witness: the round-trip theorem applied at a concrete fully-resolving
call. -/
theorem C5_roundtrip_witness :
    c5resp.signs_used = parse_text_to_signs c5req.text ∧
    c5resp.signs_skipped = [] :=
  C5_roundtrip c5env c5req c5files c5resp (by decide) (by decide)

/-- C6: promotion of a staging video: a missing staging file fails with the
not-found error; a successful save moves (not copies) the staging file into
the per-user durable store under a filename made of the timestamp and the
first eight characters of the id; and a second promotion of the same id then
fails with the not-found error. -/
theorem C6_save_promotion :
    (∀ (st : VideoStore) (temp_video_id : Str) (user_id : Int) (timestamp : Str),
      tempName temp_video_id ∉ st.staging →
      save_isl_video st temp_video_id user_id timestamp =
        .error (404, "Temporary video not found or expired".toList)) ∧
    (∀ (st : VideoStore) (temp_video_id : Str) (user_id : Int) (ts ts2 : Str),
      tempName temp_video_id ∈ st.staging →
      ∃ (st2 : VideoStore) (resp : VideoSaveResponse),
        save_isl_video st temp_video_id user_id ts = .ok (st2, resp) ∧
        resp.success = true ∧
        resp.filename = "isl_video_".toList ++ ts ++ "_".toList ++
          temp_video_id.take 8 ++ ".mp4".toList ∧
        tempName temp_video_id ∉ st2.staging ∧
        (user_id, resp.filename) ∈ st2.finalFiles ∧
        save_isl_video st2 temp_video_id user_id ts2 =
          .error (404, "Temporary video not found or expired".toList)) := by
  constructor
  · intro st id u ts h
    simp only [save_isl_video, if_neg h]
  · intro st id u ts ts2 h
    refine ⟨{ staging := st.staging.filter (fun f => f ≠ tempName id)
              finalFiles := (u, "isl_video_".toList ++ ts ++ "_".toList ++
                id.take 8 ++ ".mp4".toList) :: st.finalFiles },
            { success := true
              final_video_url := "/api/v1/isl-videos/serve/".toList ++ intStr u ++
                "/".toList ++ ("isl_video_".toList ++ ts ++ "_".toList ++
                  id.take 8 ++ ".mp4".toList)
              video_id := id
              filename := "isl_video_".toList ++ ts ++ "_".toList ++
                id.take 8 ++ ".mp4".toList
              error := none }, ?_, rfl, rfl, ?_, ?_, ?_⟩
    · simp only [save_isl_video, if_pos h]
    · intro hmem
      rcases List.mem_filter.mp hmem with ⟨_, hneq⟩
      simp at hneq
    · exact List.mem_cons_self _ _
    · have hout : tempName id ∉ st.staging.filter (fun f => f ≠ tempName id) := by
        intro hmem
        rcases List.mem_filter.mp hmem with ⟨_, hneq⟩
        simp at hneq
      simp only [save_isl_video, if_neg hout]

/-- C6 witness: both branches of the promotion theorem at a concrete store,
id, user and timestamp. -/
theorem C6_save_promotion_witness :
    (∃ (st2 : VideoStore) (resp : VideoSaveResponse),
      save_isl_video c6store "abcdefghij".toList 7 "20250101_120000".toList =
        .ok (st2, resp) ∧
      resp.success = true ∧
      resp.filename = "isl_video_".toList ++ "20250101_120000".toList ++ "_".toList ++
        ("abcdefghij".toList).take 8 ++ ".mp4".toList ∧
      tempName "abcdefghij".toList ∉ st2.staging ∧
      ((7 : Int), resp.filename) ∈ st2.finalFiles ∧
      save_isl_video st2 "abcdefghij".toList 7 "20250101_130000".toList =
        .error (404, "Temporary video not found or expired".toList)) ∧
    save_isl_video { staging := [], finalFiles := [] } "abcdefghij".toList 7
      "20250101_120000".toList =
      .error (404, "Temporary video not found or expired".toList) :=
  ⟨C6_save_promotion.2 c6store "abcdefghij".toList 7 "20250101_120000".toList
      "20250101_130000".toList (by decide),
   C6_save_promotion.1 { staging := [], finalFiles := [] } "abcdefghij".toList 7
      "20250101_120000".toList (by decide)⟩

/-- C7 counterexample: the cleanup endpoint's response is identical whether a
staging file was actually removed (first call: the file existed and is gone
afterwards) or nothing existed to remove (second call) - so the result
carries no `deleted` boolean reporting whether a file was removed. -/
theorem C7_counterexample :
    (cleanup_temp_video_endpoint [tempName c7id] c7id).2 =
      (cleanup_temp_video_endpoint [] c7id).2 ∧
    (cleanup_temp_video_endpoint [tempName c7id] c7id).1 = [] ∧
    (cleanup_temp_video_endpoint [] c7id).1 = [] ∧
    tempName c7id ∈ [tempName c7id] := by
  refine ⟨rfl, by decide, rfl, by decide⟩

/-- C7 (amended): cleanup always returns success (it never raises, also for
a nonexistent id), removes the staging file when present and leaves the
staging area unchanged otherwise; the response carries only the success flag
and a message, with no report of whether a file was removed. -/
theorem C7_cleanup_success :
    ∀ (staging : List Str) (temp_video_id : Str),
      (cleanup_temp_video_endpoint staging temp_video_id).2.success = true ∧
      tempName temp_video_id ∉ (cleanup_temp_video_endpoint staging temp_video_id).1 ∧
      (tempName temp_video_id ∉ staging →
        (cleanup_temp_video_endpoint staging temp_video_id).1 = staging) ∧
      (cleanup_temp_video_endpoint staging temp_video_id).2 =
        { success := true
          message := "Temporary video ".toList ++ temp_video_id ++
            " cleaned up successfully".toList } := by
  intro staging id
  refine ⟨rfl, ?_, ?_, rfl⟩
  · intro hmem
    rcases List.mem_filter.mp hmem with ⟨_, hneq⟩
    simp at hneq
  · intro hnm
    simp only [cleanup_temp_video_endpoint, cleanup_temp_video]
    apply List.filter_eq_self.mpr
    intro f hf
    simp only [decide_eq_true_eq]
    intro he
    exact hnm (he ▸ hf)

/-- C7 witness: the amended theorem at a nonexistent id. -/
theorem C7_cleanup_success_witness :
    (cleanup_temp_video_endpoint [] "zzz".toList).1 = [] ∧
    (cleanup_temp_video_endpoint [] "zzz".toList).2.success = true :=
  ⟨(C7_cleanup_success [] "zzz".toList).2.2.1 (by decide),
   (C7_cleanup_success [] "zzz".toList).1⟩

/-- C2 evaluation at the failing input: template lookup and substitution
succeed, persistence is skipped (the live-queue path), and the video step
raises - the orchestrator then returns `success=False` with an internal
error instead of the claimed `success=True` with the video error
propagated. -/
theorem C2_video_exception_skipped_record_fails :
    generate_train_announcement (some c2template) none none
        (.raises "sign video missing".toList) c2request false =
      { success := false
        error := some ("Internal error: ".toList ++ noneHasNoAttributeId) } := by
  rfl

/-- C10: with persistence skipped (the live-queue path) and the video step
raising instead of returning an unsuccessful response, no partial-success
response is produced: the handler's dereference of the absent record raises,
and the call returns `success=False` with the internal error message. -/
theorem C10_skipped_record_video_exception :
    ∀ (tmpl : AnnouncementTemplate) (translations : Option TrainRouteTranslations)
      (record_created : Option GeneralAnnouncementRecord) (msg : Str)
      (request : TrainAnnouncementRequest),
      generate_train_announcement (some tmpl) translations record_created
        (.raises msg) request false =
        { success := false
          error := some ("Internal error: ".toList ++ noneHasNoAttributeId) } := by
  intro tmpl translations rec msg req
  rfl

/-- C8: the worker's terminal update is COMPLETED exactly when the
orchestrator response reports success together with a truthy video
reference; the partial outcome (success without a truthy video reference) is
marked ERROR with the orchestrator's error string surfaced; and the
terminal update is the last update the worker issues. -/
theorem C8_completed_requires_video :
    (∀ call : Except Str TrainAnnouncementResponse,
      ((processFinalUpdate call).status = .completed ↔
        ∃ resp, call = .ok resp ∧ resp.success = true ∧
          pyTruthy resp.preview_url = true)) ∧
    (∀ (resp : TrainAnnouncementResponse) (e : Str),
      resp.success = true → pyTruthy resp.preview_url = false →
      resp.error = some e → e.isEmpty = false →
      processFinalUpdate (.ok resp) =
        { status := .error
          message := "Failed to generate ISL video".toList
          error_message := some e }) ∧
    (∀ call, (processAnnouncementUpdates call).getLast? =
      some (processFinalUpdate call)) := by
  refine ⟨?_, ?_, fun call => rfl⟩
  · intro call
    cases call with
    | error e => simp [processFinalUpdate]
    | ok resp =>
      by_cases hc : (resp.success && pyTruthy resp.preview_url) = true
      · simp only [processFinalUpdate, hc, if_true]
        simp only [Bool.and_eq_true] at hc
        exact ⟨fun _ => ⟨resp, rfl, hc.1, hc.2⟩, fun _ => by trivial⟩
      · have hc2 : (resp.success && pyTruthy resp.preview_url) = false :=
          Bool.eq_false_iff.mpr hc
        simp only [processFinalUpdate, hc2, Bool.false_eq_true, if_false]
        constructor
        · intro habs
          exact absurd habs (by simp)
        · rintro ⟨r, hr, hs, hp⟩
          injection hr with hreq
          subst hreq
          rw [hs, hp] at hc2
          simp at hc2
  · intro resp e hs hp he hne
    have hc2 : (resp.success && pyTruthy resp.preview_url) = false := by
      rw [hs, hp]
      rfl
    simp only [processFinalUpdate, hc2, Bool.false_eq_true, if_false, he]
    simp [pyOrStr, hne]

/-- C8 witness: the partial-outcome branch applied at a concrete partial
response. -/
theorem C8_completed_requires_video_witness :
    processFinalUpdate (.ok c8resp) =
      { status := .error
        message := "Failed to generate ISL video".toList
        error_message := some "video generation failed".toList } :=
  C8_completed_requires_video.2.1 c8resp "video generation failed".toList
    (by decide) (by decide) (by decide) (by decide)

/-- C9: a submission leaves exactly one active job: the pending queue holds
only the new id, the active rows of storage are exactly the new job's row,
and every row still active after the submission is the new row (all prior
active rows were cleared before the new job was recorded). -/
theorem C9_single_active_job :
    ∀ (st : LiveQueueState) (announcement_id : Str),
      (add_announcement st announcement_id).processing_queue = [announcement_id] ∧
      (add_announcement st announcement_id).db.filter (fun r => r.is_active) =
        [newLiveRow announcement_id] ∧
      (∀ r ∈ (add_announcement st announcement_id).db, r.is_active = true →
        r = newLiveRow announcement_id) := by
  intro st id
  refine ⟨rfl, ?_, ?_⟩
  · simp only [add_announcement, clear_existing_announcements]
    rw [List.filter_append]
    have h1 : (st.db.filter (fun r => !r.is_active)).filter (fun r => r.is_active) =
        [] := by
      rw [List.filter_eq_nil_iff]
      intro r hr
      rcases List.mem_filter.mp hr with ⟨_, hna⟩
      simp only [Bool.not_eq_true'] at hna
      simp [hna]
    rw [h1]
    simp [newLiveRow]
  · intro r hr hact
    simp only [add_announcement, clear_existing_announcements, List.nil_append,
      List.mem_append] at hr
    rcases hr with h | h
    · rcases List.mem_filter.mp h with ⟨_, hna⟩
      rw [hact] at hna
      simp at hna
    · simpa using h

/-- C9 witness: the theorem at a state with one prior active job and one
pending queue item. -/
theorem C9_single_active_job_witness :
    (add_announcement c9st "new".toList).processing_queue = ["new".toList] ∧
    (add_announcement c9st "new".toList).db.filter (fun r => r.is_active) =
      [newLiveRow "new".toList] ∧
    newLiveRow "new".toList = newLiveRow "new".toList :=
  ⟨(C9_single_active_job c9st "new".toList).1,
   (C9_single_active_job c9st "new".toList).2.1,
   (C9_single_active_job c9st "new".toList).2.2 (newLiveRow "new".toList)
     (by decide) (by decide)⟩

end SignVerse
